import Mathlib

/-!
Shallow embedding of the basketball_coach capture-and-accumulation pipeline.

The repository is a React/TypeScript client (plus documentation).  The parts
embedded here are the ones the verified claims are about:

* namespace ClientV7 — the progressive-assessment iteration of the client
  (src/unnamed/part_007): per-clip feedback accumulation, theme-tag
  detection, saturation at MAX_ASSESSMENT_CLIPS, one-shot consolidation
  (consolidateFeedback), and the motion-detection / recording sampling loop.
* namespace ClientMain — the current client (src/frontend/src/App.tsx,
  second document): the retry layer around clip submission (MAX_RETRIES,
  2s delay, error classification), session-id handling in localStorage,
  the terminal-failure reset path, and restartAssessment / startAnalysis.

JavaScript Sets (insertion-ordered, first occurrence kept) are modelled as
duplicate-free lists; localStorage as a function from keys to optional
strings; Date.now() timestamps as naturals (milliseconds).
-/

/-- The needle starts the hay. -/
def matchesAt : List Char → List Char → Bool
  | [], _ => true
  | _ :: _, [] => false
  | a :: as, b :: bs => a == b && matchesAt as bs

/-- The needle occurs contiguously somewhere in the hay. -/
def occursIn : List Char → List Char → Bool
  | n, [] => matchesAt n []
  | n, h :: hs => matchesAt n (h :: hs) || occursIn n hs

/-- JS String.prototype.includes: the needle occurs contiguously in the hay. -/
def strIncludes (hay needle : String) : Bool :=
  occursIn needle.toList hay.toList

/-- Adding one element to a JS Set: kept in insertion order, ignored if present. -/
def jsSetInsert (s : List String) (x : String) : List String :=
  if x ∈ s then s else s ++ [x]

/-- Building a JS Set from a list (Array.from(new Set(l))): first occurrences
in order.  The accumulator is the set built so far. -/
def jsSetOfListAux (seen : List String) : List String → List String
  | [] => []
  | x :: xs => if x ∈ seen then jsSetOfListAux seen xs
               else x :: jsSetOfListAux (seen ++ [x]) xs

/-- Array.from(new Set(l)). -/
def jsSetOfList (l : List String) : List String :=
  jsSetOfListAux [] l

/-- Math.abs of the difference of two natural channel values. -/
def natAbsDiff (a b : Nat) : Nat :=
  ((a : Int) - (b : Int)).natAbs

namespace ClientV7

/-- src/unnamed/part_007 line 4. -/
def MOTION_THRESHOLD : Nat := 25000
/-- src/unnamed/part_007 line 5 (5 seconds of video). -/
def SEQUENCE_DURATION : Nat := 5000
/-- src/unnamed/part_007 line 6 (analyze every 12 seconds). -/
def ANALYSIS_INTERVAL : Nat := 12000
/-- src/unnamed/part_007 line 40: saturation threshold of the progressive
assessment. -/
def MAX_ASSESSMENT_CLIPS : Nat := 4

/-- The CoachingResponse interface (part_007 lines 8-13). -/
structure CoachingResponse where
  feedback : String
  drillSuggestion : Option String := none
  technique : Option String := none
  tips : Option (List String) := none
deriving DecidableEq, Repr

/-- The AppPhase union type of part_007 (line 15). -/
inductive Phase where
  | initial
  | assessing
  | results
  | drilling
deriving DecidableEq, Repr

/-- Lines 167-174 of part_007: scan the lowercased feedback for keywords and
add the matching skill-area tags to the set, in source order. -/
def updateSkillAreas (skills : List String) (feedback : String) : List String :=
  let feedbackLower := feedback.toLower
  let s1 := if strIncludes feedbackLower "control" then jsSetInsert skills "Ball Control" else skills
  let s2 := if strIncludes feedbackLower "rhythm" || strIncludes feedbackLower "timing" then
              jsSetInsert s1 "Rhythm & Timing" else s1
  let s3 := if strIncludes feedbackLower "posture" || strIncludes feedbackLower "stance" then
              jsSetInsert s2 "Body Position" else s2
  let s4 := if strIncludes feedbackLower "height" || strIncludes feedbackLower "bounce" then
              jsSetInsert s3 "Ball Height" else s3
  if strIncludes feedbackLower "hand" || strIncludes feedbackLower "fingertip" then
    jsSetInsert s4 "Hand Technique" else s4

/-- The tags whose keyword test in updateSkillAreas passes for this feedback
text (same five tests, same order). -/
def detectedThemes (feedback : String) : List String :=
  let feedbackLower := feedback.toLower
  (if strIncludes feedbackLower "control" then ["Ball Control"] else []) ++
  (if strIncludes feedbackLower "rhythm" || strIncludes feedbackLower "timing" then ["Rhythm & Timing"] else []) ++
  (if strIncludes feedbackLower "posture" || strIncludes feedbackLower "stance" then ["Body Position"] else []) ++
  (if strIncludes feedbackLower "height" || strIncludes feedbackLower "bounce" then ["Ball Height"] else []) ++
  (if strIncludes feedbackLower "hand" || strIncludes feedbackLower "fingertip" then ["Hand Technique"] else [])

/-- consolidateFeedback (part_007 lines 311-357, identical in App.tsx lines
685-731): one-time synthesis of all per-clip feedback into a consolidated
assessment. -/
def consolidateFeedback (feedbackArray : List String) (tips : List String)
    (skills : List String) : CoachingResponse :=
  let allFeedback := String.intercalate " " feedbackArray
  let themes : List String :=
    (if strIncludes allFeedback.toLower "control" then ["needs improved ball control"] else []) ++
    (if strIncludes allFeedback.toLower "rhythm" then ["should focus on consistent rhythm"] else []) ++
    (if strIncludes allFeedback.toLower "posture" then ["requires better body positioning"] else []) ++
    (if strIncludes allFeedback.toLower "height" then ["needs to work on dribble height consistency"] else [])
  let beginnerTerms := ["basic", "fundamental", "beginner", "learning"]
  let advancedTerms := ["advanced", "complex", "sophisticated", "excellent"]
  let skillLevel : String :=
    if beginnerTerms.any (fun term => strIncludes allFeedback.toLower term) then "beginner"
    else if advancedTerms.any (fun term => strIncludes allFeedback.toLower term) then "advanced"
    else "intermediate"
  let consolidatedText :=
    "Based on " ++ toString feedbackArray.length ++ " clips, I've identified your key areas: " ++
    String.intercalate ", " skills ++ ". " ++
    (if themes.length > 0 then "Focus areas: " ++ String.intercalate ", " themes ++ "." else "")
  let uniqueTips := jsSetOfList tips
  let drillSuggestion : String :=
    if skillLevel = "beginner" then
      if skills.contains "Ball Control" then "Basic Stationary Dribble"
      else if skills.contains "Hand Technique" then "Righty-Lefty Drill"
      else "Basic Stationary Dribble"
    else if skillLevel = "intermediate" then
      if skills.contains "Body Position" then "Head Up Dribbling"
      else "Dribbling Around Cones"
    else "One on One Dribbling"
  { feedback := consolidatedText
    technique := some (match skills.head? with
      | some t => if t = "" then "Ball Control" else t
      | none => "Ball Control")
    tips := some (uniqueTips.take 5)
    drillSuggestion := some drillSuggestion }

/-- The progressive-assessment React state of part_007 (lines 23-38), with a
history field clipRecords pairing each committed clip feedback with the clip
number newClipCount the source assigns to it (the number shown by the
progress message of line 185 and by the per-clip list of the current client). -/
structure SessionState where
  phase : Phase
  assessmentClips : Nat
  cumulativeFeedback : List String
  allTips : List String
  skillAreas : List String
  baselineComplete : Bool
  consolidatedAssessment : Option CoachingResponse
  drillFeedback : Option CoachingResponse
  clipRecords : List (Nat × String)
deriving DecidableEq, Repr

/-- The initial React state (part_007 lines 23-38). -/
def initialSession : SessionState :=
  { phase := Phase.initial
    assessmentClips := 0
    cumulativeFeedback := []
    allTips := []
    skillAreas := []
    baselineComplete := false
    consolidatedAssessment := none
    drillFeedback := none
    clipRecords := [] }

/-- The state update of analyzeVideoSequence on a successful analysis response
(part_007 lines 151-191).  In the saturating branch the source passes the
pre-update allTips state value to consolidateFeedback (line 179), not the
updated newTips, and this model keeps that. -/
def submitAnalyzed (s : SessionState) (data : CoachingResponse) : SessionState :=
  if s.phase = Phase.initial ∨ s.phase = Phase.assessing then
    let newClipCount := s.assessmentClips + 1
    let newFeedback := s.cumulativeFeedback ++ [data.feedback]
    let newTips := s.allTips ++ data.tips.getD []
    let newSkillAreas := updateSkillAreas s.skillAreas data.feedback
    if MAX_ASSESSMENT_CLIPS ≤ newClipCount then
      { s with
        phase := Phase.results
        assessmentClips := newClipCount
        cumulativeFeedback := newFeedback
        allTips := newTips
        skillAreas := newSkillAreas
        baselineComplete := true
        consolidatedAssessment := some (consolidateFeedback newFeedback s.allTips newSkillAreas)
        clipRecords := s.clipRecords ++ [(newClipCount, data.feedback)] }
    else
      { s with
        assessmentClips := newClipCount
        cumulativeFeedback := newFeedback
        allTips := newTips
        skillAreas := newSkillAreas
        clipRecords := s.clipRecords ++ [(newClipCount, data.feedback)] }
  else if s.phase = Phase.drilling then
    { s with drillFeedback := some data }
  else
    s

/-- A whole session: fold the per-clip update over the sequence of analysis
responses for the successfully submitted clips. -/
def runSession (s : SessionState) (subs : List CoachingResponse) : SessionState :=
  subs.foldl submitAnalyzed s

/-- One RGBA pixel of the canvas frame buffer. -/
structure Pixel where
  r : Nat
  g : Nat
  b : Nat
  a : Nat
deriving DecidableEq, Repr

/-- A sampled frame: the pixel list of the ImageData buffer. -/
abbrev Frame := List Pixel

/-- The three channel differences of one pixel (lines 226-228 of part_007):
alpha is skipped, as the loop steps by 4 and reads offsets 0, 1, 2. -/
def pixelDiff (c p : Pixel) : Nat :=
  natAbsDiff c.r p.r + natAbsDiff c.g p.g + natAbsDiff c.b p.b

/-- The frame-difference loop of part_007 lines 224-229: accumulate the
channel differences pixel by pixel over the two buffers. -/
def frameDiff : Frame → Frame → Nat
  | c :: cs, p :: ps => pixelDiff c p + frameDiff cs ps
  | _, _ => 0

/-- The mutable pieces the sampling loop of part_007 (lines 207-295) works
with: the isRecording React flag (which in this iteration also tracks the
MediaRecorder being in its recording state), the start time of the active
recording held by the stop-timeout closure, the lastAnalysisTime ref and the
prevFrameData ref. -/
structure MotionState where
  isRecording : Bool
  recordingStart : Option Nat
  lastAnalysisTime : Nat
  prevFrame : Option Frame
deriving DecidableEq, Repr

/-- Refs and state before the first tick (lines 25, 42-43). -/
def initMotion : MotionState :=
  { isRecording := false
    recordingStart := none
    lastAnalysisTime := 0
    prevFrame := none }

/-- Lines 221-239: with no previous frame the sample is baseline only; with
one, motion is detected exactly when the frame difference exceeds the
threshold. -/
def motionDetected (s : MotionState) (f : Frame) : Bool :=
  match s.prevFrame with
  | some p => MOTION_THRESHOLD < frameDiff f p
  | none => false

/-- The recording trigger gate of line 259: motion detected, not recording,
and more than ANALYSIS_INTERVAL since lastAnalysisTime (the start time of the
previous recording, see stopTimeout). -/
def startsRecording (s : MotionState) (t : Nat) (f : Frame) : Bool :=
  motionDetected s f && !s.isRecording && decide (ANALYSIS_INTERVAL < t - s.lastAnalysisTime)

/-- One 200ms sampling tick at time t (lines 207-292): update the baseline
frame, and start a recording when the gate of line 259 passes. -/
def tickStep (s : MotionState) (t : Nat) (f : Frame) : MotionState :=
  if startsRecording s t f then
    { s with prevFrame := some f, isRecording := true, recordingStart := some t }
  else
    { s with prevFrame := some f }

/-- The stop timeout scheduled SEQUENCE_DURATION after a recording starts
(lines 275-283).  t0 is the currentTime value the closure captured when the
recording started.  If the recorder is still recording it is stopped, which
fires onstop (lines 110-114): the chunks become one blob handed to
analyzeVideoSequence, counted here as the number of emitted clips.
setIsRecording(false) and the lastAnalysisTime update run unconditionally. -/
def stopTimeout (s : MotionState) (t0 : Nat) : MotionState × Nat :=
  let emitted := if s.isRecording then 1 else 0
  ({ s with isRecording := false, recordingStart := none, lastAnalysisTime := t0 }, emitted)

end ClientV7

namespace ClientMain

/-- App.tsx line 306: maximum retry attempts for failed requests. -/
def MAX_RETRIES : Nat := 3
/-- App.tsx line 617: setTimeout delay before a retry, in milliseconds. -/
def RETRY_DELAY_MS : Nat := 2000
/-- The fixed localStorage key of App.tsx lines 440, 504, 735 and of
useAnalysisSession line 18. -/
def SESSION_KEY : String := "basketballCoachSessionId"

/-- localStorage: persistent string values under string keys. -/
def Store := String → Option String

/-- localStorage.getItem. -/
def getItem (st : Store) (k : String) : Option String := st k

/-- localStorage.setItem. -/
def setItem (st : Store) (k v : String) : Store :=
  fun k2 => if k2 = k then some v else st k2

/-- localStorage.removeItem. -/
def removeItem (st : Store) (k : String) : Store :=
  fun k2 => if k2 = k then none else st k2

/-- The fresh id template of App.tsx lines 454 and 506: a time-based id with a
random suffix. -/
def mkSessionId (now : Nat) (rand : String) : String :=
  "session_" ++ toString now ++ "_" ++ rand

/-- App.tsx lines 503-511 (and useAnalysisSession lines 18-22): use the stored
session id if the stored value is truthy, else generate a fresh one and store
it before the request.  The JS test if (!sessionId) is true for the absent key
(null) and for the empty string. -/
def ensureSessionId (st : Store) (now : Nat) (rand : String) : String × Store :=
  match getItem st SESSION_KEY with
  | some s => if s = "" then
                let sid := mkSessionId now rand
                (sid, setItem st SESSION_KEY sid)
              else (s, st)
  | none =>
      let sid := mkSessionId now rand
      (sid, setItem st SESSION_KEY sid)

/-- What analyzeVideoSequence can throw on one attempt, modelled as the
JavaScript error object the catch block of lines 604-643 classifies:
whether it is a TypeError, its name and its message. -/
structure JsError where
  isTypeError : Bool
  name : String
  message : String
deriving DecidableEq, Repr

/-- The progressive_analysis response payload (lines 531-537). -/
structure ProgressiveResponse where
  clipNumber : Nat
  saturated : Bool
  feedbackList : List String
  keyThemes : List String
  consolidatedFeedback : Option ClientV7.CoachingResponse
deriving DecidableEq, Repr

/-- What one attempt of the submission can come back with, before the catch
block sees it: a parsed 2xx payload without an error field, a non-2xx
response, a payload with an error field, a rejected fetch, or the 60s
AbortSignal timeout of line 522. -/
inductive AttemptOutcome where
  | ok (data : ProgressiveResponse)
  | httpError (status : Nat) (statusText : String)
  | payloadError (msg : String)
  | fetchFailure (msg : String)
  | timedOut
deriving DecidableEq, Repr

/-- The error object each failing outcome reaches the catch block as:
line 528 throws Error for a non-2xx response, line 536 throws Error with the
payload message, a failing fetch rejects with a TypeError, and the abort
signal of line 522 produces a DOMException named TimeoutError. -/
def thrownError : AttemptOutcome → Option JsError
  | AttemptOutcome.ok _ => none
  | AttemptOutcome.httpError status statusText =>
      some { isTypeError := false, name := "Error",
             message := "API request failed: " ++ toString status ++ " " ++ statusText }
  | AttemptOutcome.payloadError msg =>
      some { isTypeError := false, name := "Error", message := msg }
  | AttemptOutcome.fetchFailure msg =>
      some { isTypeError := true, name := "TypeError", message := msg }
  | AttemptOutcome.timedOut =>
      some { isTypeError := false, name := "TimeoutError", message := "signal timed out" }

/-- The retry classifier of lines 608-609: the caught error is a TypeError, or
its message contains the substring Failed to fetch. -/
def isNetworkError (e : JsError) : Bool :=
  e.isTypeError || strIncludes e.message "Failed to fetch"

/-- How one whole submission ends: a delivered response or a terminal error,
with the 1-based number of the final attempt and the list of delays slept
between attempts; starved is the off-the-trace case of the model where the
supplied outcome list was shorter than the attempts the code makes. -/
inductive SubmitResult where
  | delivered (data : ProgressiveResponse) (attempts : Nat) (delays : List Nat)
  | gaveUp (e : JsError) (attempts : Nat) (delays : List Nat)
  | starved
deriving DecidableEq, Repr

/-- The retry recursion of analyzeVideoSequence (lines 499, 604-619): attempt
is the 1-based attempt counter; on a failure that isNetworkError accepts while
attempt < MAX_RETRIES, sleep RETRY_DELAY_MS and recurse with attempt + 1;
every other failure is terminal. -/
def submitWithRetry (attempt : Nat) : List AttemptOutcome → SubmitResult
  | [] => SubmitResult.starved
  | AttemptOutcome.ok d :: _ => SubmitResult.delivered d attempt []
  | o :: rest =>
      let e := (thrownError o).getD { isTypeError := false, name := "", message := "" }
      if isNetworkError e ∧ attempt < MAX_RETRIES then
        match submitWithRetry (attempt + 1) rest with
        | SubmitResult.delivered d a ds => SubmitResult.delivered d a (RETRY_DELAY_MS :: ds)
        | SubmitResult.gaveUp e2 a ds => SubmitResult.gaveUp e2 a (RETRY_DELAY_MS :: ds)
        | SubmitResult.starved => SubmitResult.starved
      else SubmitResult.gaveUp e attempt []

/-- The AppPhase union of App.tsx line 330. -/
inductive AppPhase where
  | initial
  | assessing
  | results
  | drilling
  | drillWatching
  | drillPracticing
deriving DecidableEq, Repr

/-- The client state of App.tsx lines 338-355 that the verified claims are
about (UI-only fields such as videoPaused or selectedDrillInfo carry no
accumulation state and are omitted). -/
structure AppState where
  phase : AppPhase
  feedback : String
  isAnalysisActive : Bool
  isRecording : Bool
  recordingProgress : Nat
  assessmentClips : Nat
  cumulativeFeedback : List String
  skillAreas : List String
  baselineComplete : Bool
  consolidatedAssessment : Option ClientV7.CoachingResponse
  currentDrill : Option String
  initialAssessment : Option ClientV7.CoachingResponse
  drillFeedback : Option ClientV7.CoachingResponse
deriving DecidableEq, Repr

/-- The initial React state (lines 338-355). -/
def initialAppState : AppState :=
  { phase := AppPhase.initial
    feedback := "Ready to analyze your dribbling"
    isAnalysisActive := false
    isRecording := false
    recordingProgress := 0
    assessmentClips := 0
    cumulativeFeedback := []
    skillAreas := []
    baselineComplete := false
    consolidatedAssessment := none
    currentDrill := none
    initialAssessment := none
    drillFeedback := none }

/-- The user-facing message the catch block derives from the caught error
(lines 621-629). -/
def errorMessageFor (e : JsError) : String :=
  if e.isTypeError || strIncludes e.message "Failed to fetch" then
    "Unable to connect to analysis service. Please check your internet connection and try again."
  else if e.name = "AbortError" then
    "Analysis timed out. Please try again with better lighting and video quality."
  else e.message

/-- The immediate state update of a terminal failure (lines 631-634): one
error status message, recording flags cleared. -/
def terminalFailureUpdate (s : AppState) (errorMessage : String) : AppState :=
  { s with
      feedback := "Analysis failed: " ++ errorMessage
      isRecording := false
      isAnalysisActive := false
      recordingProgress := 0 }

/-- The 4-second setTimeout after a terminal failure (lines 637-642): if the
phase is still assessing, return to the initial phase with the retry prompt;
nothing else is touched. -/
def delayedErrorReset (s : AppState) : AppState :=
  if s.phase = AppPhase.assessing then
    { s with
        phase := AppPhase.initial
        feedback := "Ready to analyze your dribbling. Please ensure good lighting and try again." }
  else s

/-- startAnalysis (lines 438-470): delete any old session server-side (the
outcome deleteSucceeded of that request is irrelevant to the client state),
drop the stored id, store a fresh one, and reset the local accumulation
state for a fresh assessing phase. -/
def startAnalysis (s : AppState) (st : Store) (newSessionId : String)
    (deleteSucceeded : Bool) : AppState × Store :=
  let st1 := match getItem st SESSION_KEY with
    | some _ => removeItem st SESSION_KEY
    | none => st
  let st2 := setItem st1 SESSION_KEY newSessionId
  ({ s with
      assessmentClips := 0
      cumulativeFeedback := []
      skillAreas := []
      baselineComplete := false
      consolidatedAssessment := none
      recordingProgress := 0
      isAnalysisActive := true
      phase := AppPhase.assessing
      feedback := "Recording..." }, st2)

/-- restartAssessment (lines 733-763): request the server-side delete of the
stored session (deleteSucceeded is that request's outcome; a failure is only
logged), remove the stored id either way, and reset the local state. -/
def restartAssessment (s : AppState) (st : Store) (deleteSucceeded : Bool) :
    AppState × Store :=
  let st1 := match getItem st SESSION_KEY with
    | some _ => removeItem st SESSION_KEY
    | none => st
  ({ s with
      phase := AppPhase.initial
      currentDrill := none
      initialAssessment := none
      drillFeedback := none
      assessmentClips := 0
      cumulativeFeedback := []
      skillAreas := []
      baselineComplete := false
      consolidatedAssessment := none
      isAnalysisActive := false
      feedback := "Ready to analyze your dribbling" }, st1)

end ClientMain

/-! Spec-side definitions for the consolidation claim: the skill level as the
spec words it (ordered vocabulary, beginner-indicative terms take precedence
over advanced-indicative ones, default intermediate) and the fixed
recommended-drill lookup keyed by skill level and detected themes.  They are
written from the specification text and compared with the source-derived
consolidateFeedback by theorem. -/

/-- The three skill levels of the specification. -/
inductive SkillLevel where
  | beginner
  | intermediate
  | advanced
deriving DecidableEq, Repr

/-- Skill level inferred from the concatenated feedback text by ordered
keyword matching: beginner-indicative terms first, then advanced-indicative
terms, default intermediate. -/
def specSkillLevel (text : String) : SkillLevel :=
  if ["basic", "fundamental", "beginner", "learning"].any
      (fun term => strIncludes text.toLower term) then SkillLevel.beginner
  else if ["advanced", "complex", "sophisticated", "excellent"].any
      (fun term => strIncludes text.toLower term) then SkillLevel.advanced
  else SkillLevel.intermediate

/-- The fixed recommended-drill lookup, keyed by skill level and the detected
theme set. -/
def specDrillTable : SkillLevel → List String → String
  | SkillLevel.beginner, skills =>
      if skills.contains "Ball Control" then "Basic Stationary Dribble"
      else if skills.contains "Hand Technique" then "Righty-Lefty Drill"
      else "Basic Stationary Dribble"
  | SkillLevel.intermediate, skills =>
      if skills.contains "Body Position" then "Head Up Dribbling"
      else "Dribbling Around Cones"
  | SkillLevel.advanced, _ => "One on One Dribbling"

namespace ClientV7

/-- Invariant of an unsaturated session run: k clips committed, phase still
initial, feedback list of length k, records numbered 1..k, no consolidation. -/
def SessionInv (k : Nat) (s : SessionState) : Prop :=
  s.phase = Phase.initial ∧
  s.assessmentClips = k ∧
  s.cumulativeFeedback.length = k ∧
  s.clipRecords.map Prod.fst = List.range' 1 k ∧
  s.baselineComplete = false ∧
  s.consolidatedAssessment = none

/-- A concrete all-black 34-pixel frame; against whiteFrame the frame
difference is 34 * 765 = 26010 > MOTION_THRESHOLD. -/
def blackFrame : Frame := List.replicate 34 ⟨0, 0, 0, 255⟩

/-- A concrete all-white 34-pixel frame. -/
def whiteFrame : Frame := List.replicate 34 ⟨255, 255, 255, 255⟩

/-- Concrete sampling trace, step 1: baseline tick at t = 0. -/
def motionTrace0 : MotionState := tickStep initMotion 0 blackFrame

/-- Concrete sampling trace, step 2: motion tick at t = 12001 that starts a
recording. -/
def motionTrace1 : MotionState := tickStep motionTrace0 12001 whiteFrame

/-- Concrete sampling trace, step 3: the stop timeout of that recording fires
at t = 12001 + SEQUENCE_DURATION = 17001, so the recording ends at 17001. -/
def motionTrace2 : MotionState := (stopTimeout motionTrace1 12001).1

end ClientV7

namespace ClientMain

/-- A localStorage with nothing stored. -/
def emptyStore : Store := fun _ => none

/-- A concrete mid-assessment client state: two clips committed, one theme. -/
def c7FailState : AppState :=
  { initialAppState with
      phase := AppPhase.assessing
      assessmentClips := 2
      cumulativeFeedback := ["a", "b"]
      skillAreas := ["Ball Control"] }

/-- c7FailState after a terminal failure and the 4-second reset timeout. -/
def c7AfterReset : AppState :=
  delayedErrorReset (terminalFailureUpdate c7FailState
    "Unable to connect to analysis service. Please check your internet connection and try again.")

/-- A concrete successful progressive_analysis payload. -/
def sampleResponse : ProgressiveResponse :=
  { clipNumber := 1, saturated := false, feedbackList := ["Good control"],
    keyThemes := [], consolidatedFeedback := none }

/-- A concrete attempt trace: two transport failures, then success. -/
def retryWitnessOuts : List AttemptOutcome :=
  [AttemptOutcome.fetchFailure "Failed to fetch",
   AttemptOutcome.fetchFailure "Failed to fetch",
   AttemptOutcome.ok sampleResponse]

end ClientMain

/-! Helper lemmas about the JS Set model. -/

theorem mem_jsSetInsert (s : List String) (x y : String) :
    y ∈ jsSetInsert s x ↔ y ∈ s ∨ y = x := by
  unfold jsSetInsert
  by_cases hx : x ∈ s
  · simp only [if_pos hx]
    constructor
    · exact fun h => Or.inl h
    · rintro (h | rfl)
      · exact h
      · exact hx
  · simp [if_neg hx]

theorem subset_jsSetInsert (s : List String) (x : String) :
    s ⊆ jsSetInsert s x := by
  intro y hy
  exact (mem_jsSetInsert s x y).mpr (Or.inl hy)

theorem jsSetOfListAux_nodup (l : List String) :
    ∀ seen, (∀ x ∈ jsSetOfListAux seen l, x ∉ seen) ∧ (jsSetOfListAux seen l).Nodup := by
  induction l with
  | nil => intro seen; simp [jsSetOfListAux]
  | cons x xs ih =>
      intro seen
      unfold jsSetOfListAux
      by_cases hx : x ∈ seen
      · simpa [if_pos hx] using ih seen
      · simp only [if_neg hx]
        obtain ⟨hmem, hnd⟩ := ih (seen ++ [x])
        refine ⟨?_, ?_⟩
        · intro y hy
          rcases List.mem_cons.mp hy with rfl | hy2
          · exact hx
          · intro hseen
            exact hmem y hy2 (List.mem_append.mpr (Or.inl hseen))
        · refine List.nodup_cons.mpr ⟨?_, hnd⟩
          intro hxin
          exact hmem x hxin (List.mem_append.mpr (Or.inr (List.mem_singleton.mpr rfl)))

theorem jsSetOfList_nodup (l : List String) : (jsSetOfList l).Nodup :=
  (jsSetOfListAux_nodup l []).2

/-! Theme detection lemmas (part_007 lines 166-174). -/

theorem mem_updateSkillAreas (skills : List String) (fb x : String) :
    x ∈ ClientV7.updateSkillAreas skills fb ↔ x ∈ skills ∨ x ∈ ClientV7.detectedThemes fb := by
  unfold ClientV7.updateSkillAreas ClientV7.detectedThemes
  by_cases h1 : strIncludes fb.toLower "control" = true <;>
  by_cases h2 : (strIncludes fb.toLower "rhythm" || strIncludes fb.toLower "timing") = true <;>
  by_cases h3 : (strIncludes fb.toLower "posture" || strIncludes fb.toLower "stance") = true <;>
  by_cases h4 : (strIncludes fb.toLower "height" || strIncludes fb.toLower "bounce") = true <;>
  by_cases h5 : (strIncludes fb.toLower "hand" || strIncludes fb.toLower "fingertip") = true <;>
  simp [h1, h2, h3, h4, h5, mem_jsSetInsert, or_assoc]

theorem subset_updateSkillAreas (skills : List String) (fb : String) :
    skills ⊆ ClientV7.updateSkillAreas skills fb := by
  intro y hy
  exact (mem_updateSkillAreas skills fb y).mpr (Or.inl hy)

namespace ClientV7

/-! Motion machine lemmas. -/

theorem frameDiff_eq_sum (f p : Frame) :
    frameDiff f p = ((f.zip p).map (fun cp => pixelDiff cp.1 cp.2)).sum := by
  induction f generalizing p with
  | nil => cases p <;> simp [frameDiff]
  | cons c cs ih =>
      cases p with
      | nil => simp [frameDiff]
      | cons pp ps => simp [frameDiff, ih]

/-! Session invariant lemmas. -/

theorem sessionInv_init : SessionInv 0 initialSession := by
  simp [SessionInv, initialSession]

theorem submitAnalyzed_results_fixed (s : SessionState) (d : CoachingResponse)
    (h : s.phase = Phase.results) : submitAnalyzed s d = s := by
  unfold submitAnalyzed
  rw [h]
  simp

theorem runSession_results_fixed (subs : List CoachingResponse) :
    ∀ (s : SessionState), s.phase = Phase.results → runSession s subs = s := by
  induction subs with
  | nil => intro s _; rfl
  | cons d ds ih =>
      intro s h
      show runSession (submitAnalyzed s d) ds = s
      rw [submitAnalyzed_results_fixed s d h]
      exact ih s h

theorem runSession_append (s : SessionState) (l1 l2 : List CoachingResponse) :
    runSession s (l1 ++ l2) = runSession (runSession s l1) l2 :=
  List.foldl_append _ _ _ _

theorem sessionInv_step (s : SessionState) (d : CoachingResponse) (k : Nat)
    (hinv : SessionInv k s) (hlt : k + 1 < MAX_ASSESSMENT_CLIPS) :
    SessionInv (k + 1) (submitAnalyzed s d) := by
  obtain ⟨hph, hclips, hlen, hrec, hbase, hcons⟩ := hinv
  have hcond : s.phase = Phase.initial ∨ s.phase = Phase.assessing := Or.inl hph
  have hsat : ¬ (MAX_ASSESSMENT_CLIPS ≤ s.assessmentClips + 1) := by omega
  unfold submitAnalyzed
  rw [if_pos hcond, if_neg hsat]
  refine ⟨hph, by simp [hclips], by simp [hlen], ?_, hbase, hcons⟩
  simp only [List.map_append, hrec, hclips]
  simp [List.range'_concat]
  omega

theorem sessionInv_saturate (s : SessionState) (d : CoachingResponse)
    (hinv : SessionInv (MAX_ASSESSMENT_CLIPS - 1) s) :
    (submitAnalyzed s d).phase = Phase.results ∧
    (submitAnalyzed s d).baselineComplete = true ∧
    (submitAnalyzed s d).assessmentClips = MAX_ASSESSMENT_CLIPS ∧
    (submitAnalyzed s d).cumulativeFeedback.length = MAX_ASSESSMENT_CLIPS ∧
    (submitAnalyzed s d).clipRecords.map Prod.fst = List.range' 1 MAX_ASSESSMENT_CLIPS ∧
    (submitAnalyzed s d).consolidatedAssessment =
      some (consolidateFeedback (s.cumulativeFeedback ++ [d.feedback]) s.allTips
        (updateSkillAreas s.skillAreas d.feedback)) := by
  obtain ⟨hph, hclips, hlen, hrec, hbase, hcons⟩ := hinv
  have hcond : s.phase = Phase.initial ∨ s.phase = Phase.assessing := Or.inl hph
  have hsat : MAX_ASSESSMENT_CLIPS ≤ s.assessmentClips + 1 := by
    rw [hclips]; omega
  unfold submitAnalyzed
  rw [if_pos hcond, if_pos hsat]
  have hM : MAX_ASSESSMENT_CLIPS = 4 := rfl
  refine ⟨rfl, rfl, by simp [hclips]; omega, by simp [hlen]; omega, ?_, rfl⟩
  simp only [List.map_append, hrec, hclips]
  have h4 : MAX_ASSESSMENT_CLIPS - 1 + 1 = MAX_ASSESSMENT_CLIPS := by omega
  rw [← h4, List.range'_concat]
  simp
  omega

theorem runSession_inv (subs : List CoachingResponse) :
    ∀ (k : Nat) (s : SessionState), SessionInv k s →
      k + subs.length < MAX_ASSESSMENT_CLIPS →
      SessionInv (k + subs.length) (runSession s subs) := by
  induction subs with
  | nil => intro k s hinv _; simpa using hinv
  | cons d ds ih =>
      intro k s hinv hlt
      show SessionInv _ (runSession (submitAnalyzed s d) ds)
      have h1 : k + 1 < MAX_ASSESSMENT_CLIPS := by simp at hlt; omega
      have := ih (k + 1) (submitAnalyzed s d) (sessionInv_step s d k hinv h1)
        (by simp at hlt ⊢; omega)
      have harith : k + 1 + ds.length = k + (d :: ds).length := by simp; omega
      rwa [harith] at this

end ClientV7

namespace ClientMain

/-! Retry layer lemmas. -/

theorem thrownError_eq_none_iff (o : AttemptOutcome) :
    thrownError o = none ↔ ∃ d, o = AttemptOutcome.ok d := by
  cases o <;> simp [thrownError]

theorem submitWithRetry_cons_fail (attempt : Nat) (o : AttemptOutcome)
    (rest : List AttemptOutcome) (eo : JsError) (ho : thrownError o = some eo) :
    submitWithRetry attempt (o :: rest) =
      if isNetworkError eo ∧ attempt < MAX_RETRIES then
        match submitWithRetry (attempt + 1) rest with
        | SubmitResult.delivered d a ds => SubmitResult.delivered d a (RETRY_DELAY_MS :: ds)
        | SubmitResult.gaveUp e2 a ds => SubmitResult.gaveUp e2 a (RETRY_DELAY_MS :: ds)
        | SubmitResult.starved => SubmitResult.starved
      else SubmitResult.gaveUp eo attempt [] := by
  cases o with
  | ok d => simp [thrownError] at ho
  | httpError st stx =>
      simp only [thrownError, Option.some_inj] at ho
      subst ho
      rfl
  | payloadError m =>
      simp only [thrownError, Option.some_inj] at ho
      subst ho
      rfl
  | fetchFailure m =>
      simp only [thrownError, Option.some_inj] at ho
      subst ho
      rfl
  | timedOut =>
      simp only [thrownError, Option.some_inj] at ho
      subst ho
      rfl

theorem submitWithRetry_spec (outs : List AttemptOutcome) :
    ∀ attempt : Nat, 1 ≤ attempt → attempt ≤ MAX_RETRIES →
    MAX_RETRIES < attempt + outs.length →
    (submitWithRetry attempt outs ≠ SubmitResult.starved) ∧
    (∀ d a ds, submitWithRetry attempt outs = SubmitResult.delivered d a ds →
      attempt ≤ a ∧ a ≤ MAX_RETRIES ∧
      ds = List.replicate (a - attempt) RETRY_DELAY_MS ∧
      (outs.drop (a - attempt)).head? = some (AttemptOutcome.ok d) ∧
      (∀ o ∈ outs.take (a - attempt), ∃ e, thrownError o = some e ∧ isNetworkError e = true)) ∧
    (∀ e a ds, submitWithRetry attempt outs = SubmitResult.gaveUp e a ds →
      attempt ≤ a ∧ a ≤ MAX_RETRIES ∧
      ds = List.replicate (a - attempt) RETRY_DELAY_MS ∧
      (∃ o, (outs.drop (a - attempt)).head? = some o ∧ thrownError o = some e) ∧
      (a < MAX_RETRIES → isNetworkError e = false) ∧
      (∀ o ∈ outs.take (a - attempt), ∃ e2, thrownError o = some e2 ∧ isNetworkError e2 = true)) := by
  induction outs with
  | nil =>
      intro attempt h1 h2 h3
      simp at h3
      omega
  | cons o rest ih =>
      intro attempt h1 h2 h3
      rcases ho : thrownError o with _ | eo
      · obtain ⟨d0, rfl⟩ := (thrownError_eq_none_iff o).mp ho
        refine ⟨by simp [submitWithRetry], ?_, ?_⟩
        · intro d a ds heq
          simp only [submitWithRetry, SubmitResult.delivered.injEq] at heq
          obtain ⟨rfl, rfl, rfl⟩ := heq
          refine ⟨le_refl _, h2, by simp, by simp, by simp⟩
        · intro e a ds heq
          simp [submitWithRetry] at heq
      · rw [submitWithRetry_cons_fail attempt o rest eo ho]
        by_cases hc : isNetworkError eo = true ∧ attempt < MAX_RETRIES
        · rw [if_pos hc]
          obtain ⟨ihn, ihd, ihg⟩ := ih (attempt + 1) (by omega) (by omega) (by simp at h3 ⊢; omega)
          rcases hr : submitWithRetry (attempt + 1) rest with ⟨d1, a1, ds1⟩ | ⟨e1, a1, ds1⟩ | _
          · obtain ⟨haa, haM, hds, hdrop, htake⟩ := ihd d1 a1 ds1 hr
            refine ⟨by simp, ?_, ?_⟩
            · intro d a ds heq
              simp only [SubmitResult.delivered.injEq] at heq
              obtain ⟨rfl, rfl, rfl⟩ := heq
              have hj : a1 - attempt = (a1 - (attempt + 1)) + 1 := by omega
              refine ⟨by omega, haM, ?_, ?_, ?_⟩
              · rw [hj, List.replicate_succ, hds]
              · rw [hj, List.drop_succ_cons]
                exact hdrop
              · rw [hj, List.take_succ_cons]
                intro o2 ho2
                rcases List.mem_cons.mp ho2 with rfl | ho3
                · exact ⟨eo, ho, hc.1⟩
                · exact htake o2 ho3
            · intro e a ds heq
              simp at heq
          · obtain ⟨haa, haM, hds, hwit, hterm, htake⟩ := ihg e1 a1 ds1 hr
            refine ⟨by simp, ?_, ?_⟩
            · intro d a ds heq
              simp at heq
            · intro e a ds heq
              simp only [SubmitResult.gaveUp.injEq] at heq
              obtain ⟨rfl, rfl, rfl⟩ := heq
              have hj : a1 - attempt = (a1 - (attempt + 1)) + 1 := by omega
              refine ⟨by omega, haM, ?_, ?_, hterm, ?_⟩
              · rw [hj, List.replicate_succ, hds]
              · rw [hj, List.drop_succ_cons]
                exact hwit
              · rw [hj, List.take_succ_cons]
                intro o2 ho2
                rcases List.mem_cons.mp ho2 with rfl | ho3
                · exact ⟨eo, ho, hc.1⟩
                · exact htake o2 ho3
          · exact absurd hr ihn
        · rw [if_neg hc]
          refine ⟨by simp, ?_, ?_⟩
          · intro d a ds heq
            simp at heq
          · intro e a ds heq
            simp only [SubmitResult.gaveUp.injEq] at heq
            obtain ⟨rfl, rfl, rfl⟩ := heq
            refine ⟨le_refl _, h2, by simp, ⟨o, by simp, ho⟩, ?_, by simp⟩
            intro ha
            by_cases hn : isNetworkError eo = true
            · exact absurd ⟨hn, ha⟩ hc
            · simpa using hn

end ClientMain

/-! The claims. -/

/-- C1: for every sequence of successfully submitted clips, while the number
of committed clips K is strictly below the saturation threshold the session is
unsaturated, has no consolidated result, and holds exactly K feedback entries
numbered 1..K contiguously and strictly increasing; as soon as K reaches the
threshold it is saturated in the results phase with a non-null consolidated
result, and the whole session state — the consolidated result included — is
fixed under any further submissions, so the result is computed exactly once
and re-derivation is idempotent. -/
theorem C1_progressive_saturation (subs : List ClientV7.CoachingResponse) :
    (subs.length < ClientV7.MAX_ASSESSMENT_CLIPS →
      (ClientV7.runSession ClientV7.initialSession subs).baselineComplete = false ∧
      (ClientV7.runSession ClientV7.initialSession subs).consolidatedAssessment = none ∧
      (ClientV7.runSession ClientV7.initialSession subs).cumulativeFeedback.length = subs.length ∧
      (ClientV7.runSession ClientV7.initialSession subs).clipRecords.map Prod.fst =
        List.range' 1 subs.length) ∧
    (ClientV7.MAX_ASSESSMENT_CLIPS ≤ subs.length →
      (ClientV7.runSession ClientV7.initialSession subs).baselineComplete = true ∧
      (ClientV7.runSession ClientV7.initialSession subs).phase = ClientV7.Phase.results ∧
      (∃ c, (ClientV7.runSession ClientV7.initialSession subs).consolidatedAssessment = some c) ∧
      (∀ more, ClientV7.runSession (ClientV7.runSession ClientV7.initialSession subs) more =
        ClientV7.runSession ClientV7.initialSession subs)) := by
  constructor
  · intro hlt
    have hinv := ClientV7.runSession_inv subs 0 ClientV7.initialSession ClientV7.sessionInv_init
      (by omega)
    simp only [Nat.zero_add] at hinv
    obtain ⟨_, _, hlen, hrec, hbase, hcons⟩ := hinv
    exact ⟨hbase, hcons, hlen, hrec⟩
  · intro hge
    have hM : ClientV7.MAX_ASSESSMENT_CLIPS = 4 := rfl
    set t := subs.take ClientV7.MAX_ASSESSMENT_CLIPS with ht
    have htlen : t.length = ClientV7.MAX_ASSESSMENT_CLIPS := by
      rw [ht, List.length_take]
      omega
    have hsplit : ClientV7.runSession ClientV7.initialSession subs =
        ClientV7.runSession (ClientV7.runSession ClientV7.initialSession t)
          (subs.drop ClientV7.MAX_ASSESSMENT_CLIPS) := by
      conv_lhs => rw [← List.take_append_drop ClientV7.MAX_ASSESSMENT_CLIPS subs]
      exact ClientV7.runSession_append _ _ _
    rcases List.eq_nil_or_concat t with hnil | ⟨t2, d, hcat⟩
    · rw [hnil] at htlen; simp at htlen; omega
    · have ht2len : t2.length = ClientV7.MAX_ASSESSMENT_CLIPS - 1 := by
        rw [hcat] at htlen; simp at htlen; omega
      have hinv2 := ClientV7.runSession_inv t2 0 ClientV7.initialSession ClientV7.sessionInv_init
        (by omega)
      simp only [Nat.zero_add, ht2len] at hinv2
      have hrun_t : ClientV7.runSession ClientV7.initialSession t =
          ClientV7.submitAnalyzed (ClientV7.runSession ClientV7.initialSession t2) d := by
        rw [hcat, List.concat_eq_append, ClientV7.runSession_append]
        rfl
      have hsat := ClientV7.sessionInv_saturate (ClientV7.runSession ClientV7.initialSession t2) d hinv2
      obtain ⟨hph4, hbase4, _, _, _, hcons4⟩ := hsat
      have hclose : ClientV7.runSession ClientV7.initialSession subs =
          ClientV7.submitAnalyzed (ClientV7.runSession ClientV7.initialSession t2) d := by
        rw [hsplit, hrun_t]
        exact ClientV7.runSession_results_fixed _ _ hph4
      rw [hclose]
      refine ⟨hbase4, hph4, ⟨_, hcons4⟩, ?_⟩
      intro more
      exact ClientV7.runSession_results_fixed more _ hph4

/-- C2, counterexample to the claim as stated: in a concrete sampling trace
the previous recording started at t = 12001 and ended at
12001 + SEQUENCE_DURATION = 17001, yet a tick at t = 24002 starts a new
recording although only 7001ms — less than the configured 12s interval — have
elapsed since that recording ended: the code measures the cooldown from the
recording's start (lastAnalysisTime), not from its end. -/
theorem C2_counterexample :
    ClientV7.startsRecording ClientV7.motionTrace2 24002 ClientV7.blackFrame = true ∧
    24002 - (12001 + ClientV7.SEQUENCE_DURATION) < ClientV7.ANALYSIS_INTERVAL := by
  decide

/-- C2, amended: a sampling tick turns recording on only from a state with no
recording in progress, with motion detected on that tick, and with more than
ANALYSIS_INTERVAL elapsed since the last recording started (lastAnalysisTime
holds that start time) — so no new recording ever starts while Recording or
inside that window, however large the motion metric. -/
theorem C2_recording_gate (s : ClientV7.MotionState) (t : Nat) (f : ClientV7.Frame)
    (h : (ClientV7.tickStep s t f).isRecording = true) :
    s.isRecording = true ∨
      (s.isRecording = false ∧ ClientV7.motionDetected s f = true ∧
       s.lastAnalysisTime + ClientV7.ANALYSIS_INTERVAL < t) := by
  by_cases hs : ClientV7.startsRecording s t f = true
  · right
    have h1 := hs
    unfold ClientV7.startsRecording at h1
    simp only [Bool.and_eq_true, Bool.not_eq_true', decide_eq_true_eq] at h1
    obtain ⟨⟨hm, hrec⟩, hgate⟩ := h1
    refine ⟨hrec, hm, ?_⟩
    omega
  · left
    unfold ClientV7.tickStep at h
    simp [hs] at h
    exact h

/-- C2, witness: the gate theorem applied to the concrete trace tick that
starts the first recording at t = 12001. -/
theorem C2_recording_gate_witness :
    ClientV7.motionTrace0.isRecording = true ∨
      (ClientV7.motionTrace0.isRecording = false ∧
       ClientV7.motionDetected ClientV7.motionTrace0 ClientV7.whiteFrame = true ∧
       ClientV7.motionTrace0.lastAnalysisTime + ClientV7.ANALYSIS_INTERVAL < 12001) :=
  C2_recording_gate ClientV7.motionTrace0 12001 ClientV7.whiteFrame (by decide)

/-- C3, counterexample to the claim as stated: a payload-level error — the
server answered 2xx with an error field — whose message happens to contain
the substring Failed to fetch is not terminal: the classifier of lines
608-609 matches on that substring, so a second attempt runs and the
submission ends delivered on attempt 2 after one 2s delay. -/
theorem C3_counterexample :
    ClientMain.thrownError (ClientMain.AttemptOutcome.payloadError "Failed to fetch") =
      some { isTypeError := false, name := "Error", message := "Failed to fetch" } ∧
    ClientMain.submitWithRetry 1
      [ClientMain.AttemptOutcome.payloadError "Failed to fetch",
       ClientMain.AttemptOutcome.ok ClientMain.sampleResponse] =
      ClientMain.SubmitResult.delivered ClientMain.sampleResponse 2 [ClientMain.RETRY_DELAY_MS] :=
  ⟨rfl, by decide⟩

/-- C3, amended: every submission uses at most MAX_RETRIES = 3 attempts with
a fixed RETRY_DELAY_MS = 2000ms delay between consecutive attempts; an
attempt is followed by another exactly when the caught error satisfies
isNetworkError (it is a TypeError or its message contains the substring
Failed to fetch) and the cap is not reached, so every earlier attempt of a
submission failed with such an error, and a submission that gives up below
the cap did so on an error isNetworkError rejects (HTTP non-2xx responses,
timeouts, and payload errors without that substring). -/
theorem C3_retry_policy (outs : List ClientMain.AttemptOutcome)
    (h : ClientMain.MAX_RETRIES ≤ outs.length) :
    (ClientMain.submitWithRetry 1 outs ≠ ClientMain.SubmitResult.starved) ∧
    (∀ d a ds, ClientMain.submitWithRetry 1 outs = ClientMain.SubmitResult.delivered d a ds →
      1 ≤ a ∧ a ≤ ClientMain.MAX_RETRIES ∧
      ds = List.replicate (a - 1) ClientMain.RETRY_DELAY_MS ∧
      (outs.drop (a - 1)).head? = some (ClientMain.AttemptOutcome.ok d) ∧
      (∀ o ∈ outs.take (a - 1), ∃ e, ClientMain.thrownError o = some e ∧
        ClientMain.isNetworkError e = true)) ∧
    (∀ e a ds, ClientMain.submitWithRetry 1 outs = ClientMain.SubmitResult.gaveUp e a ds →
      1 ≤ a ∧ a ≤ ClientMain.MAX_RETRIES ∧
      ds = List.replicate (a - 1) ClientMain.RETRY_DELAY_MS ∧
      (∃ o, (outs.drop (a - 1)).head? = some o ∧ ClientMain.thrownError o = some e) ∧
      (a < ClientMain.MAX_RETRIES → ClientMain.isNetworkError e = false) ∧
      (∀ o ∈ outs.take (a - 1), ∃ e2, ClientMain.thrownError o = some e2 ∧
        ClientMain.isNetworkError e2 = true)) :=
  ClientMain.submitWithRetry_spec outs 1 (le_refl 1) (by decide) (by omega)

/-- C3, witness: the retry policy applied to the concrete trace of two
transport failures followed by a success. -/
theorem C3_retry_policy_witness :
    (ClientMain.submitWithRetry 1 ClientMain.retryWitnessOuts ≠ ClientMain.SubmitResult.starved) ∧
    (∀ d a ds, ClientMain.submitWithRetry 1 ClientMain.retryWitnessOuts =
        ClientMain.SubmitResult.delivered d a ds →
      1 ≤ a ∧ a ≤ ClientMain.MAX_RETRIES ∧
      ds = List.replicate (a - 1) ClientMain.RETRY_DELAY_MS ∧
      (ClientMain.retryWitnessOuts.drop (a - 1)).head? = some (ClientMain.AttemptOutcome.ok d) ∧
      (∀ o ∈ ClientMain.retryWitnessOuts.take (a - 1), ∃ e, ClientMain.thrownError o = some e ∧
        ClientMain.isNetworkError e = true)) ∧
    (∀ e a ds, ClientMain.submitWithRetry 1 ClientMain.retryWitnessOuts =
        ClientMain.SubmitResult.gaveUp e a ds →
      1 ≤ a ∧ a ≤ ClientMain.MAX_RETRIES ∧
      ds = List.replicate (a - 1) ClientMain.RETRY_DELAY_MS ∧
      (∃ o, (ClientMain.retryWitnessOuts.drop (a - 1)).head? = some o ∧
        ClientMain.thrownError o = some e) ∧
      (a < ClientMain.MAX_RETRIES → ClientMain.isNetworkError e = false) ∧
      (∀ o ∈ ClientMain.retryWitnessOuts.take (a - 1), ∃ e2, ClientMain.thrownError o = some e2 ∧
        ClientMain.isNetworkError e2 = true)) :=
  C3_retry_policy ClientMain.retryWitnessOuts (by decide)

/-- C4: for every accumulated state, the consolidated result's tip list is
the JS-Set deduplication of the accumulated tips capped at 5 entries (so of
length at most 5 and duplicate-free), and its single recommended drill is the
fixed lookup specDrillTable keyed by the detected theme set and the skill
level specSkillLevel inferred from the concatenated feedback by ordered
keyword matching with beginner-indicative terms taking precedence over
advanced-indicative ones and default intermediate. -/
theorem C4_consolidation (fa tips skills : List String) :
    (ClientV7.consolidateFeedback fa tips skills).tips = some ((jsSetOfList tips).take 5) ∧
    ((jsSetOfList tips).take 5).length ≤ 5 ∧
    ((jsSetOfList tips).take 5).Nodup ∧
    (ClientV7.consolidateFeedback fa tips skills).drillSuggestion =
      some (specDrillTable (specSkillLevel (String.intercalate " " fa)) skills) := by
  refine ⟨rfl, List.length_take_le 5 _, (List.take_sublist 5 _).nodup (jsSetOfList_nodup tips), ?_⟩
  by_cases hb : (["basic", "fundamental", "beginner", "learning"].any
      (fun term => strIncludes (String.intercalate " " fa).toLower term)) = true
  · simp [ClientV7.consolidateFeedback, specSkillLevel, specDrillTable, hb]
  · by_cases ha : (["advanced", "complex", "sophisticated", "excellent"].any
        (fun term => strIncludes (String.intercalate " " fa).toLower term)) = true
    · simp [ClientV7.consolidateFeedback, specSkillLevel, specDrillTable, hb, ha]
    · simp [ClientV7.consolidateFeedback, specSkillLevel, specDrillTable, hb, ha]

/-- C5: on a sampling tick with a previous frame, the motion metric is the
pixel-by-pixel sum over the paired frame buffers of the absolute R, G and B
channel differences, and motion is detected exactly when it exceeds
MOTION_THRESHOLD; on a tick with no previous frame no motion is detected, no
recording starts, and the sample only becomes the new baseline. -/
theorem C5_motion_metric (s : ClientV7.MotionState) (t : Nat) (f : ClientV7.Frame) :
    (∀ p, s.prevFrame = some p →
      ClientV7.frameDiff f p = ((f.zip p).map (fun cp => ClientV7.pixelDiff cp.1 cp.2)).sum ∧
      (ClientV7.motionDetected s f = true ↔ ClientV7.MOTION_THRESHOLD < ClientV7.frameDiff f p)) ∧
    (s.prevFrame = none →
      ClientV7.motionDetected s f = false ∧ ClientV7.startsRecording s t f = false ∧
      (ClientV7.tickStep s t f).prevFrame = some f) := by
  constructor
  · intro p hp
    refine ⟨ClientV7.frameDiff_eq_sum f p, ?_⟩
    unfold ClientV7.motionDetected
    rw [hp]
    simp
  · intro hp
    have hm : ClientV7.motionDetected s f = false := by
      unfold ClientV7.motionDetected
      rw [hp]
    refine ⟨hm, ?_, ?_⟩
    · unfold ClientV7.startsRecording
      simp [hm]
    · unfold ClientV7.tickStep
      by_cases hs : ClientV7.startsRecording s t f = true <;> simp [hs]

/-- C6: a clip submission unions the theme tags detected in the clip's
feedback text into the session's accumulated theme set — the set after any
submission is a superset of the set before it, and membership in the updated
set is exactly membership in the old set or in the detected tags. -/
theorem C6_theme_accumulation (s : ClientV7.SessionState) (d : ClientV7.CoachingResponse) :
    s.skillAreas ⊆ (ClientV7.submitAnalyzed s d).skillAreas ∧
    (∀ (skills : List String) (fb x : String),
      x ∈ ClientV7.updateSkillAreas skills fb ↔ x ∈ skills ∨ x ∈ ClientV7.detectedThemes fb) := by
  refine ⟨?_, fun skills fb x => mem_updateSkillAreas skills fb x⟩
  by_cases hph : (s.phase = ClientV7.Phase.initial ∨ s.phase = ClientV7.Phase.assessing)
  · by_cases hsat : ClientV7.MAX_ASSESSMENT_CLIPS ≤ s.assessmentClips + 1
    · simp [ClientV7.submitAnalyzed, hph, hsat]
      exact subset_updateSkillAreas s.skillAreas d.feedback
    · simp [ClientV7.submitAnalyzed, hph, hsat]
      exact subset_updateSkillAreas s.skillAreas d.feedback
  · by_cases hdr : s.phase = ClientV7.Phase.drilling
    · simp [ClientV7.submitAnalyzed, hph, hdr]
    · simp [ClientV7.submitAnalyzed, hph, hdr]

/-- C7, counterexample to the claim as stated: after a terminal failure in a
concrete mid-assessment state with two committed clips, the 4-second reset
returns the phase to initial but leaves the clip count, feedback list and
theme set untouched, so the state is not the initial state and client-side
accumulation survives the reset. -/
theorem C7_counterexample :
    ClientMain.c7AfterReset.phase = ClientMain.AppPhase.initial ∧
    ClientMain.c7AfterReset.assessmentClips = 2 ∧
    ClientMain.initialAppState.assessmentClips = 0 ∧
    ClientMain.c7AfterReset.skillAreas = ["Ball Control"] ∧
    ClientMain.initialAppState.skillAreas = [] ∧
    ClientMain.c7AfterReset.cumulativeFeedback = ["a", "b"] ∧
    ClientMain.initialAppState.cumulativeFeedback = [] := by
  decide

/-- C7, amended: a terminal failure during the assessing phase surfaces one
user-facing error status, and the delayed reset returns only the phase to the
initial screen (discarding the in-flight clip); the accumulated clip count,
feedback list and theme set persist unchanged in client state until the user
explicitly starts a new analysis, which zeroes them and stores a fresh
session id under the fixed key. -/
theorem C7_failure_reset (s : ClientMain.AppState) (e : ClientMain.JsError)
    (st : ClientMain.Store) (newSid : String) (ok : Bool)
    (h : s.phase = ClientMain.AppPhase.assessing) :
    (ClientMain.terminalFailureUpdate s (ClientMain.errorMessageFor e)).feedback =
      "Analysis failed: " ++ ClientMain.errorMessageFor e ∧
    (ClientMain.delayedErrorReset (ClientMain.terminalFailureUpdate s (ClientMain.errorMessageFor e))).phase =
      ClientMain.AppPhase.initial ∧
    (ClientMain.delayedErrorReset (ClientMain.terminalFailureUpdate s (ClientMain.errorMessageFor e))).assessmentClips =
      s.assessmentClips ∧
    (ClientMain.delayedErrorReset (ClientMain.terminalFailureUpdate s (ClientMain.errorMessageFor e))).cumulativeFeedback =
      s.cumulativeFeedback ∧
    (ClientMain.delayedErrorReset (ClientMain.terminalFailureUpdate s (ClientMain.errorMessageFor e))).skillAreas =
      s.skillAreas ∧
    (ClientMain.startAnalysis
      (ClientMain.delayedErrorReset (ClientMain.terminalFailureUpdate s (ClientMain.errorMessageFor e)))
      st newSid ok).1.assessmentClips = 0 ∧
    (ClientMain.startAnalysis
      (ClientMain.delayedErrorReset (ClientMain.terminalFailureUpdate s (ClientMain.errorMessageFor e)))
      st newSid ok).1.cumulativeFeedback = [] ∧
    (ClientMain.startAnalysis
      (ClientMain.delayedErrorReset (ClientMain.terminalFailureUpdate s (ClientMain.errorMessageFor e)))
      st newSid ok).1.skillAreas = [] ∧
    ClientMain.getItem (ClientMain.startAnalysis
      (ClientMain.delayedErrorReset (ClientMain.terminalFailureUpdate s (ClientMain.errorMessageFor e)))
      st newSid ok).2 ClientMain.SESSION_KEY = some newSid := by
  simp [ClientMain.terminalFailureUpdate, ClientMain.delayedErrorReset, ClientMain.startAnalysis,
    h, ClientMain.getItem, ClientMain.setItem, ClientMain.removeItem]

/-- C7, witness: the amended behaviour at the concrete mid-assessment state,
a transport error, an empty store and a fresh id. -/
theorem C7_failure_reset_witness :
    (ClientMain.terminalFailureUpdate ClientMain.c7FailState
      (ClientMain.errorMessageFor ⟨true, "TypeError", "Failed to fetch"⟩)).feedback =
      "Analysis failed: " ++ ClientMain.errorMessageFor ⟨true, "TypeError", "Failed to fetch"⟩ ∧
    (ClientMain.delayedErrorReset (ClientMain.terminalFailureUpdate ClientMain.c7FailState
      (ClientMain.errorMessageFor ⟨true, "TypeError", "Failed to fetch"⟩))).phase =
      ClientMain.AppPhase.initial ∧
    (ClientMain.delayedErrorReset (ClientMain.terminalFailureUpdate ClientMain.c7FailState
      (ClientMain.errorMessageFor ⟨true, "TypeError", "Failed to fetch"⟩))).assessmentClips =
      ClientMain.c7FailState.assessmentClips ∧
    (ClientMain.delayedErrorReset (ClientMain.terminalFailureUpdate ClientMain.c7FailState
      (ClientMain.errorMessageFor ⟨true, "TypeError", "Failed to fetch"⟩))).cumulativeFeedback =
      ClientMain.c7FailState.cumulativeFeedback ∧
    (ClientMain.delayedErrorReset (ClientMain.terminalFailureUpdate ClientMain.c7FailState
      (ClientMain.errorMessageFor ⟨true, "TypeError", "Failed to fetch"⟩))).skillAreas =
      ClientMain.c7FailState.skillAreas ∧
    (ClientMain.startAnalysis
      (ClientMain.delayedErrorReset (ClientMain.terminalFailureUpdate ClientMain.c7FailState
        (ClientMain.errorMessageFor ⟨true, "TypeError", "Failed to fetch"⟩)))
      ClientMain.emptyStore "session_1_ab" true).1.assessmentClips = 0 ∧
    (ClientMain.startAnalysis
      (ClientMain.delayedErrorReset (ClientMain.terminalFailureUpdate ClientMain.c7FailState
        (ClientMain.errorMessageFor ⟨true, "TypeError", "Failed to fetch"⟩)))
      ClientMain.emptyStore "session_1_ab" true).1.cumulativeFeedback = [] ∧
    (ClientMain.startAnalysis
      (ClientMain.delayedErrorReset (ClientMain.terminalFailureUpdate ClientMain.c7FailState
        (ClientMain.errorMessageFor ⟨true, "TypeError", "Failed to fetch"⟩)))
      ClientMain.emptyStore "session_1_ab" true).1.skillAreas = [] ∧
    ClientMain.getItem (ClientMain.startAnalysis
      (ClientMain.delayedErrorReset (ClientMain.terminalFailureUpdate ClientMain.c7FailState
        (ClientMain.errorMessageFor ⟨true, "TypeError", "Failed to fetch"⟩)))
      ClientMain.emptyStore "session_1_ab" true).2 ClientMain.SESSION_KEY = some "session_1_ab" :=
  C7_failure_reset ClientMain.c7FailState ⟨true, "TypeError", "Failed to fetch"⟩
    ClientMain.emptyStore "session_1_ab" true rfl

/-- C8: whenever a recording is in progress (started at t0) and its stop
timeout fires, exactly one finished clip is handed to analysis, capture is
stopped, lastAnalysisTime is set to the recording's start time, no new
recording can start on any tick up to t0 + ANALYSIS_INTERVAL (the cooldown
window), any motion tick after that window starts one again (armed), and a
second stop on the already-stopped state hands off no further clip. -/
theorem C8_stop_handoff (s : ClientV7.MotionState) (t0 : Nat)
    (hrec : s.isRecording = true) (hstart : s.recordingStart = some t0) :
    (ClientV7.stopTimeout s t0).2 = 1 ∧
    (ClientV7.stopTimeout s t0).1.isRecording = false ∧
    (ClientV7.stopTimeout s t0).1.lastAnalysisTime = t0 ∧
    (∀ (t : Nat) (f : ClientV7.Frame), t ≤ t0 + ClientV7.ANALYSIS_INTERVAL →
        ClientV7.startsRecording (ClientV7.stopTimeout s t0).1 t f = false) ∧
    (∀ (t : Nat) (f : ClientV7.Frame), t0 + ClientV7.ANALYSIS_INTERVAL < t →
        ClientV7.motionDetected (ClientV7.stopTimeout s t0).1 f = true →
        ClientV7.startsRecording (ClientV7.stopTimeout s t0).1 t f = true) ∧
    (ClientV7.stopTimeout (ClientV7.stopTimeout s t0).1 t0).2 = 0 := by
  refine ⟨by simp [ClientV7.stopTimeout, hrec], by simp [ClientV7.stopTimeout],
    by simp [ClientV7.stopTimeout], ?_, ?_, by simp [ClientV7.stopTimeout]⟩
  · intro t f ht
    unfold ClientV7.startsRecording ClientV7.stopTimeout
    have hd : ¬ (ClientV7.ANALYSIS_INTERVAL < t - t0) := by omega
    simp [hd]
  · intro t f ht hm
    unfold ClientV7.startsRecording
    simp only [ClientV7.stopTimeout] at hm ⊢
    simp only [hm, Bool.true_and, Bool.not_false, Bool.and_true, decide_eq_true_eq]
    omega

/-- C8, witness: the stop timeout of the concrete recording started at
t = 12001 in the sampling trace. -/
theorem C8_stop_handoff_witness :
    (ClientV7.stopTimeout ClientV7.motionTrace1 12001).2 = 1 ∧
    (ClientV7.stopTimeout ClientV7.motionTrace1 12001).1.isRecording = false ∧
    (ClientV7.stopTimeout ClientV7.motionTrace1 12001).1.lastAnalysisTime = 12001 ∧
    (∀ (t : Nat) (f : ClientV7.Frame), t ≤ 12001 + ClientV7.ANALYSIS_INTERVAL →
        ClientV7.startsRecording (ClientV7.stopTimeout ClientV7.motionTrace1 12001).1 t f = false) ∧
    (∀ (t : Nat) (f : ClientV7.Frame), 12001 + ClientV7.ANALYSIS_INTERVAL < t →
        ClientV7.motionDetected (ClientV7.stopTimeout ClientV7.motionTrace1 12001).1 f = true →
        ClientV7.startsRecording (ClientV7.stopTimeout ClientV7.motionTrace1 12001).1 t f = true) ∧
    (ClientV7.stopTimeout (ClientV7.stopTimeout ClientV7.motionTrace1 12001).1 12001).2 = 0 :=
  C8_stop_handoff ClientV7.motionTrace1 12001 (by decide) (by decide)

/-- C9: a clip submission reuses a stored session id verbatim, leaving the
store untouched, whenever one is stored under the fixed key and is a
non-empty token (the spec's notion of a session id); with nothing stored, the
fresh time-and-random id is returned, is stored under the key before the
request, and is non-empty. -/
theorem C9_session_id_reuse (st : ClientMain.Store) (now : Nat) (rand : String) :
    (∀ s, ClientMain.getItem st ClientMain.SESSION_KEY = some s → s ≠ "" →
      ClientMain.ensureSessionId st now rand = (s, st)) ∧
    (ClientMain.getItem st ClientMain.SESSION_KEY = none →
      (ClientMain.ensureSessionId st now rand).1 = ClientMain.mkSessionId now rand ∧
      ClientMain.getItem (ClientMain.ensureSessionId st now rand).2 ClientMain.SESSION_KEY =
        some (ClientMain.mkSessionId now rand) ∧
      ClientMain.mkSessionId now rand ≠ "") := by
  have hne : ClientMain.mkSessionId now rand ≠ "" := by
    intro h
    have hlen := congrArg String.length h
    simp [ClientMain.mkSessionId, String.length_append] at hlen
    exact absurd hlen.1.1.1 (by decide)
  constructor
  · intro s hs hsne
    unfold ClientMain.ensureSessionId
    rw [hs]
    simp [hsne]
  · intro hnone
    unfold ClientMain.ensureSessionId
    rw [hnone]
    refine ⟨rfl, ?_, hne⟩
    simp [ClientMain.getItem, ClientMain.setItem]

/-- C10: the explicit restart clears the stored session id and resets the
client accumulation state (phase, clip count, cumulative feedback, theme set,
saturation flag, consolidated result) whatever the outcome of the server-side
delete request — the result is literally independent of that outcome, so a
failed delete never leaves the client resumed on the old id. -/
theorem C10_restart_clears (s : ClientMain.AppState) (st : ClientMain.Store) (ok : Bool) :
    ClientMain.getItem (ClientMain.restartAssessment s st ok).2 ClientMain.SESSION_KEY = none ∧
    (ClientMain.restartAssessment s st ok).1.phase = ClientMain.AppPhase.initial ∧
    (ClientMain.restartAssessment s st ok).1.assessmentClips = 0 ∧
    (ClientMain.restartAssessment s st ok).1.cumulativeFeedback = [] ∧
    (ClientMain.restartAssessment s st ok).1.skillAreas = [] ∧
    (ClientMain.restartAssessment s st ok).1.baselineComplete = false ∧
    (ClientMain.restartAssessment s st ok).1.consolidatedAssessment = none ∧
    ClientMain.restartAssessment s st true = ClientMain.restartAssessment s st false := by
  cases hk : st ClientMain.SESSION_KEY with
  | none =>
      refine ⟨?_, rfl, rfl, rfl, rfl, rfl, rfl, rfl⟩
      simp [ClientMain.restartAssessment, ClientMain.getItem, hk]
  | some v =>
      refine ⟨?_, rfl, rfl, rfl, rfl, rfl, rfl, rfl⟩
      simp [ClientMain.restartAssessment, ClientMain.getItem, ClientMain.removeItem, hk]
